import Mathlib

/-!
Shallow embedding of the Tappy skill-orchestration pipeline.

The embedding covers:
* the frontend API types (`apps/web/types/api.ts`),
* the news-result formatter shown in `docs/browser-use/integration-guide.md`,
* the SSE client hook `useSSE` (`apps/web/lib/useSSE.ts`),
* the inbox provider's `addItem` (`apps/web/components/inbox-provider.tsx`),
* the registered-skill table (`apps/api/SKILLS.md`, `CREATE_SKILLS.md`),
and, for the backend components whose Python sources are not in the tree
(planner, executor, action-session handler and the `/journal` pipeline in
`apps/api/app/main.py` / `apps/api/app/skills.py`), models built from the
specification, each marked `Modelled from the spec:` in its doc comment.
-/

namespace Tappy

/-! ## Frontend API types (from `apps/web/types/api.ts`) -/

/-- `SkillType` from `types/api.ts`: the union
`"data_retrieval" | "action" | "analysis" | "interactive"`. -/
inductive SkillType where
  | data_retrieval
  | action
  | analysis
  | interactive
deriving DecidableEq, Repr

/-- `SkillStatus` from `types/api.ts`:
`"pending" | "running" | "completed" | "failed"`. -/
inductive SkillStatus where
  | pending
  | running
  | completed
  | failed
deriving DecidableEq, Repr

/-- `InboxItemStatus` from `types/api.ts`:
`"pending" | "completed" | "needs_confirmation"`. -/
inductive InboxItemStatus where
  | pending
  | completed
  | needs_confirmation
deriving DecidableEq, Repr

/-- `PlannerResult` from `types/api.ts` (parameters kept as an association
list of string key/value pairs; the TS type is an open string-keyed map). -/
structure PlannerResult where
  should_act : Bool
  skill_id : Option String
  skill_name : Option String
  parameters : Option (List (String × String))
  reason : String
deriving DecidableEq, Repr

/-- One news article as consumed by the formatter in
`docs/browser-use/integration-guide.md` (`result.output["result"]["articles"]`). -/
structure Article where
  title : String
  source : String
deriving DecidableEq, Repr

/-- The opaque `output` payload of a skill execution, specialised to the
nested `{"result": {"articles": [...]}}` shape the news formatter reads. -/
structure SkillOutput where
  articles : List Article
deriving DecidableEq, Repr

/-- `SkillExecutionResult` from `types/api.ts`. -/
structure SkillExecutionResult where
  status : SkillStatus
  skill_id : Option String
  skill_name : Option String
  skill_type : Option SkillType
  output : Option SkillOutput
  error : Option String
deriving DecidableEq, Repr

/-- `InboxItemResponse` from `apps/web/types/api.ts` (the variant used by
the inbox provider and the SSE hook). -/
structure InboxItemResponse where
  id : Nat
  title : String
  message : String
  journal_entry_id : Option Nat
  journal_excerpt : Option String
  created_at : String
  is_read : Bool
deriving DecidableEq, Repr

/-- `FormattedSkillResult` as used by the formatters in
`docs/browser-use/integration-guide.md` (title, message, optional action
label, status; `action` defaults to absent in the Python model). -/
structure FormattedSkillResult where
  title : String
  message : String
  action : Option String
  status : InboxItemStatus
deriving DecidableEq, Repr

/-! ## String containment helper (used to state "contains verbatim") -/

/-- `listInfix n h` decides whether `n` occurs contiguously inside `h`. -/
def listInfix (n h : List Char) : Bool :=
  (List.range (h.length + 1)).any fun i => (h.drop i).take n.length = n

/-- `strContains needle hay` decides whether `needle` occurs verbatim
inside `hay`. -/
def strContains (needle hay : String) : Bool :=
  listInfix needle.toList hay.toList

/-! ## News formatter (from `docs/browser-use/integration-guide.md`,
`format_news_result`) -/

/-- Python `f"{x}"` rendering of an `Optional[str]`: `None` prints as the
literal text `None`. -/
def pyOptStr (o : Option String) : String :=
  match o with
  | some s => s
  | none => "None"

/-- Modelled from the spec: the guide's success branch calls a helper
`format_articles(articles)` whose body is not in the tree; the spec only
requires a bounded human-readable listing, so it is modelled as joining
the article titles with newlines. -/
def format_articles (articles : List Article) : String :=
  String.intercalate "\n" (articles.map Article.title)

/-- `format_news_result` from `docs/browser-use/integration-guide.md`:
on `failed` status it returns title `"📰 News Search Failed"`, message
`f"Error: {result.error}"`, status `pending`, no action label; otherwise
it reads `result.output["result"]["articles"]` (absent output read as an
empty list, matching the Python `.get` chain with `{}` fallbacks) and
returns a `needs_confirmation` result with a `"Read More"` action. -/
def format_news_result (result : SkillExecutionResult) : FormattedSkillResult :=
  if result.status = SkillStatus.failed then
    { title := "📰 News Search Failed"
      message := "Error: " ++ pyOptStr result.error
      action := none
      status := InboxItemStatus.pending }
  else
    let articles :=
      match result.output with
      | some o => o.articles
      | none => []
    { title := "📰 Found " ++ toString articles.length ++ " articles"
      message := format_articles articles
      action := some "Read More"
      status := InboxItemStatus.needs_confirmation }

/-! ## SSE client hook (from `apps/web/lib/useSSE.ts`) -/

/-- What a single `"inbox-item"` event does, per the listener body of
`useSSE`: `try { const data = JSON.parse(event.data); callbackRef.current(data) }
catch (err) { console.error(...) }`. -/
structure InboxEventEffect where
  callbackInvoked : Option InboxItemResponse
  errorLogged : Bool
  connectionClosed : Bool
deriving DecidableEq, Repr

/-- The `"inbox-item"` event listener of `useSSE`, with JSON decoding
abstracted as the function `parse` (`JSON.parse` plus the
`InboxItemResponse` reading; `none` is a thrown parse error). On success
the subscriber callback is invoked with the parsed item; on failure the
error is logged via `console.error` and nothing else happens — in
particular the listener never calls `eventSource.close()`. -/
def handleInboxEvent (parse : String → Option InboxItemResponse)
    (data : String) : InboxEventEffect :=
  match parse data with
  | some item =>
      { callbackInvoked := some item
        errorLogged := false
        connectionClosed := false }
  | none =>
      { callbackInvoked := none
        errorLogged := true
        connectionClosed := false }

/-- Client-side connection state of `useSSE`: whether an `EventSource`
is currently open (`eventSourceRef`) and a pending reconnect timer with
its delay in milliseconds (`reconnectTimeoutRef`). -/
structure SSEClientState where
  sourceOpen : Bool
  reconnectTimer : Option Nat
deriving DecidableEq, Repr

/-- The delay `useSSE` passes to `setTimeout(connect, 3000)`. -/
def reconnectDelayMs : Nat := 3000

/-- The `onerror` handler of `useSSE`: close the event source, drop the
ref, clear any pending reconnect timer and schedule `connect` after
`3000` ms. -/
def onError (_s : SSEClientState) : SSEClientState :=
  { sourceOpen := false
    reconnectTimer := some reconnectDelayMs }

/-! ## Inbox provider (from `apps/web/components/inbox-provider.tsx`) -/

/-- `addItem` of the `InboxProvider`: prepend the item unless an item
with the same `id` is already present. -/
def addItem (item : InboxItemResponse) (prev : List InboxItemResponse) :
    List InboxItemResponse :=
  if prev.any fun i => i.id = item.id then prev else item :: prev

/-! ## Push-delivery fan-out

Modelled from the spec: the server side of the push channel
(`/events` SSE endpoint in `apps/api/app/main.py`) is not in the tree.
Per §4.7/§6: a created Notification is broadcast to every currently
connected client; clients disconnected at broadcast time do not receive
the missed event via this channel, and the server does not replay missed
events on reconnect. -/

/-- One observable step of the delivery subsystem: a client connects,
a client disconnects, or a notification is created (and broadcast). -/
inductive DeliveryEvent where
  | connect (c : Nat)
  | disconnect (c : Nat)
  | create (n : Nat)
deriving DecidableEq, Repr

/-- Delivery-subsystem state: the set of currently connected clients and
the log of push events delivered so far, as (client, notification) pairs. -/
structure DeliveryState where
  connected : List Nat
  delivered : List (Nat × Nat)
deriving DecidableEq, Repr

/-- Initial delivery state: no clients, nothing delivered. -/
def initDelivery : DeliveryState :=
  { connected := [], delivered := [] }

/-- Modelled from the spec: one step of the delivery subsystem.
`connect` only adds the client to the fan-out set (no replay of past
events); `disconnect` removes it; `create n` appends one push event per
currently connected client. -/
def stepDelivery (s : DeliveryState) (e : DeliveryEvent) : DeliveryState :=
  match e with
  | DeliveryEvent.connect c =>
      { s with connected := if c ∈ s.connected then s.connected else c :: s.connected }
  | DeliveryEvent.disconnect c =>
      { s with connected := s.connected.filter fun x => x ≠ c }
  | DeliveryEvent.create n =>
      { s with delivered := s.delivered ++ s.connected.map fun c => (c, n) }

/-- Run a trace of delivery events from a starting state. -/
def runDelivery (s : DeliveryState) (tr : List DeliveryEvent) : DeliveryState :=
  tr.foldl stepDelivery s

/-- Number of push events client `c` has received for notification `n`. -/
def receivedCount (c n : Nat) (s : DeliveryState) : Nat :=
  s.delivered.count (c, n)

/-! ## Planner

Modelled from the spec: the planner layer `_plan_action` in
`apps/api/app/main.py` is not in the tree. Per §4.3: parse the model's
reply strictly as the expected shape; on parse failure, retry once with
a corrective follow-up prompt; on second failure, fall back to
`should_act=false` with `reason="planner_parse_error"` rather than
propagating an exception. -/

/-- The fallback decision the planner returns after two parse failures. -/
def plannerParseFallback : PlannerResult :=
  { should_act := false
    skill_id := none
    skill_name := none
    parameters := none
    reason := "planner_parse_error" }

/-- Modelled from the spec: the planner layer. `firstReply` and
`secondReply` are the results of strictly parsing the model's first reply
and (when needed) the reply to the corrective follow-up prompt; `none`
is a parse failure. Returns the decision together with the number of
model calls made. -/
def plan_action (firstReply secondReply : Option PlannerResult) :
    PlannerResult × Nat :=
  match firstReply with
  | some d => (d, 1)
  | none =>
      match secondReply with
      | some d => (d, 2)
      | none => (plannerParseFallback, 2)

/-! ## Parameter schema validation

Modelled from the spec: the Pydantic parameter schemas live in
`apps/api/app/skills.py`, not in the tree. Per §4.2: `validate(schema,
candidate_parameters)` yields either a normalized parameter mapping
(defaults filled in) or a `ValidationError` naming the offending field
and reason (missing required field). Invariant (§3): required fields
have no default. -/

/-- One declared field of a parameter schema: name, required flag and
optional default value. -/
structure SchemaField where
  name : String
  required : Bool
  dflt : Option String
deriving DecidableEq, Repr

/-- Look up a candidate parameter by name. -/
def lookupParam (params : List (String × String)) (name : String) :
    Option String :=
  match params.find? fun p => p.1 = name with
  | some p => some p.2
  | none => none

/-- Modelled from the spec: schema validation. Walks the declared
fields; a present candidate value is kept, an absent optional field takes
its default (or is omitted when it has none), and an absent required
field is a `ValidationError` naming the field. -/
def validateParams (schema : List SchemaField)
    (params : List (String × String)) :
    Except String (List (String × String)) :=
  match schema with
  | [] => Except.ok []
  | f :: rest =>
      match validateParams rest params with
      | Except.error e => Except.error e
      | Except.ok normd =>
          match lookupParam params f.name with
          | some v => Except.ok ((f.name, v) :: normd)
          | none =>
              match f.dflt with
              | some d => Except.ok ((f.name, d) :: normd)
              | none =>
                  if f.required then
                    Except.error ("missing required field: " ++ f.name)
                  else Except.ok normd

/-! ## Action-kind handler

Modelled from the spec: the session-based action execution in
`apps/api/app/skills.py` is not in the tree. Per §4.4: `create_session →
submit_task → poll_until_terminal`, followed by `release_session` which
must run even if a prior phase failed; exceeding the polling deadline
yields `timed_out`, treated identically to `failed`. -/

/-- Outcome of the `submit_task` phase. -/
inductive SubmitOutcome where
  | ok
  | err (msg : String)
deriving DecidableEq, Repr

/-- Terminal outcome of the polling phase. -/
inductive PollOutcome where
  | completed (out : SkillOutput)
  | err (msg : String)
  | timed_out
deriving DecidableEq, Repr

/-- Result of an action-kind run: the execution result plus how many
times `release_session` was called. -/
structure ActionRunTrace where
  result : SkillExecutionResult
  releaseCalls : Nat
deriving DecidableEq, Repr

/-- Build a `failed` execution result for a skill with the given error. -/
def failedResult (sid : String) (msg : String) : SkillExecutionResult :=
  { status := SkillStatus.failed
    skill_id := some sid
    skill_name := none
    skill_type := some SkillType.action
    output := none
    error := some msg }

/-- Modelled from the spec: the action-kind execution state machine.
`createOk` is whether `create_session` succeeded; `submit` and `poll`
are the injected outcomes of the later phases (`poll` is only reached
when `submit` succeeded). Once the session exists, every exit path runs
`release_session` exactly once; a failure or timeout in any phase makes
the final status `failed`. -/
def run_action (sid : String) (createOk : Bool) (submit : SubmitOutcome)
    (poll : PollOutcome) : ActionRunTrace :=
  if createOk then
    match submit with
    | SubmitOutcome.err m =>
        { result := failedResult sid m, releaseCalls := 1 }
    | SubmitOutcome.ok =>
        match poll with
        | PollOutcome.completed out =>
            { result :=
                { status := SkillStatus.completed
                  skill_id := some sid
                  skill_name := none
                  skill_type := some SkillType.action
                  output := some out
                  error := none }
              releaseCalls := 1 }
        | PollOutcome.err m =>
            { result := failedResult sid m, releaseCalls := 1 }
        | PollOutcome.timed_out =>
            { result := failedResult sid "timed_out", releaseCalls := 1 }
  else
    { result := failedResult sid "session creation failed", releaseCalls := 0 }

/-! ## Executor

Modelled from the spec: `_execute_skill` in `apps/api/app/main.py` is
not in the tree. Per §4.5: look up the handler, validate parameters
against the skill's schema (failure → `failed` result with the
validation message, no external call made), invoke `handler.execute`
under a timeout, and catch all handler-raised faults, converting them
into `failed` results. -/

/-- What the handler invocation does once reached: returns output,
raises a fault, or exceeds its timeout. -/
inductive HandlerOutcome where
  | ok (out : SkillOutput)
  | fault (msg : String)
  | timeout
deriving DecidableEq, Repr

/-- Result of one Executor run: the execution result plus whether any
external provider call was made. -/
structure ExecutorTrace where
  result : SkillExecutionResult
  externalCall : Bool
deriving DecidableEq, Repr

/-- Modelled from the spec: `Executor.run`. The registry is an
association list from skill id to parameter schema; `outcome` is the
injected behaviour of `handler.execute`. Validation failure short
circuits with a `failed` result carrying the validation message and no
external call; handler faults and timeouts become `failed` results. -/
def executor_run (registry : List (String × List SchemaField))
    (outcome : HandlerOutcome) (decision : PlannerResult) : ExecutorTrace :=
  match decision.skill_id with
  | none =>
      { result := failedResult "" "no skill selected", externalCall := false }
  | some sid =>
      match registry.find? fun r => r.1 = sid with
      | none =>
          { result := failedResult sid "unknown skill", externalCall := false }
      | some entry =>
          match validateParams entry.2 (decision.parameters.getD []) with
          | Except.error msg =>
              { result := failedResult sid msg, externalCall := false }
          | Except.ok _ =>
              match outcome with
              | HandlerOutcome.ok out =>
                  { result :=
                      { status := SkillStatus.completed
                        skill_id := some sid
                        skill_name := decision.skill_name
                        skill_type := none
                        output := some out
                        error := none }
                    externalCall := true }
              | HandlerOutcome.fault msg =>
                  { result := failedResult sid msg, externalCall := true }
              | HandlerOutcome.timeout =>
                  { result := failedResult sid "timeout", externalCall := true }

/-! ## Ingestion pipeline

Modelled from the spec: the `POST /journal` pipeline in
`apps/api/app/main.py` is not in the tree; its response shape
`JournalCreateResponse` is (in `types/api.ts`): `entry`, `plan`,
`execution : SkillExecutionResult | null`,
`inbox_item : InboxItemResponse | null`. Per §4.3 the planner's
`should_act=false` is the sole gate preventing execution; per §2/§6 a
`should_act=true` decision triggers exactly one Executor run whose
result is formatted and delivered as a notification. -/

/-- Observable outcome of processing one note: the planner decision, the
`execution` and notification fields of the response, and how many
Executor runs happened. -/
structure JournalPipelineOut where
  plan : PlannerResult
  execution : Option SkillExecutionResult
  inbox_item : Option FormattedSkillResult
  executorRuns : Nat
deriving DecidableEq, Repr

/-- Modelled from the spec: process one note given its planner decision.
When `should_act` is false nothing runs and both `execution` and
`inbox_item` are null; when it is true the Executor runs exactly once
and its result is formatted (by the skill's formatter `fmt`) into the
notification payload — also for `failed` results. -/
def process_note (registry : List (String × List SchemaField))
    (outcome : HandlerOutcome)
    (fmt : SkillExecutionResult → FormattedSkillResult)
    (plan : PlannerResult) : JournalPipelineOut :=
  if plan.should_act then
    let t := executor_run registry outcome plan
    { plan := plan
      execution := some t.result
      inbox_item := some (fmt t.result)
      executorRuns := 1 }
  else
    { plan := plan
      execution := none
      inbox_item := none
      executorRuns := 0 }

/-! ## Registered skills (from `CREATE_SKILLS.md` / `apps/api/SKILLS.md`
registry tables) -/

/-- One row of the registered-skills table. -/
structure RegisteredSkill where
  name : String
  sid : String
  kind : SkillType
deriving DecidableEq, Repr

/-- The registered-skills table from `CREATE_SKILLS.md` ("Current
Skills") and `apps/api/SKILLS.md` ("Registered Skills"). -/
def registeredSkills : List RegisteredSkill :=
  [ { name := "Tech Job Search"
      sid := "805c9a12-9d9d-4d64-8234-9d8b378cf6cf"
      kind := SkillType.data_retrieval }
  , { name := "HackerNews Top Posts"
      sid := "962a620b-607b-4c08-a51f-0376f24c1938"
      kind := SkillType.data_retrieval }
  , { name := "Weather Forecast"
      sid := "911880ed-b5a9-408e-803e-db1279585bab"
      kind := SkillType.data_retrieval }
  , { name := "News Search"
      sid := "7ed94633-2162-4b78-a958-ba924b58c6e0"
      kind := SkillType.data_retrieval }
  , { name := "YouTube Search"
      sid := "e6cec7da-4d28-4fc2-91e5-0f7cf4602196"
      kind := SkillType.data_retrieval }
  , { name := "X.com Post Maker"
      sid := "eb6153e1-1e95-4e5b-88ac-5158c9207b9c"
      kind := SkillType.action }
  , { name := "Google Calendar"
      sid := "20f63d34-afa9-4e18-b361-47edd270c3ca"
      kind := SkillType.action }
  , { name := "Amazon Add to Cart"
      sid := "adbd36f2-a522-4f06-b458-946bd236ded2"
      kind := SkillType.action }
  , { name := "Save Gmail Draft"
      sid := "27441e62-faaf-4c15-855a-f7bbb479bbf0"
      kind := SkillType.action } ]

/-! ## Sample inputs (used by witnesses and counterexamples) -/

/-- A planner decision that declines to act. -/
def samplePlanNoAct : PlannerResult :=
  { should_act := false
    skill_id := none
    skill_name := none
    parameters := none
    reason := "no actionable content" }

/-- A planner decision selecting the news skill with valid parameters. -/
def samplePlanAct : PlannerResult :=
  { should_act := true
    skill_id := some "news"
    skill_name := some "News Search"
    parameters := some [("query", "ai")]
    reason := "user asked for news" }

/-- A planner decision selecting the news skill but missing its required
`query` parameter. -/
def samplePlanBadParams : PlannerResult :=
  { should_act := true
    skill_id := some "news"
    skill_name := some "News Search"
    parameters := some [("limit", "5")]
    reason := "user asked for news" }

/-- A one-skill registry: the news skill with a required `query` field
and an optional `limit` field defaulting to `"5"`. -/
def sampleRegistry : List (String × List SchemaField) :=
  [("news",
    [ { name := "query", required := true, dflt := none }
    , { name := "limit", required := false, dflt := some "5" } ])]

/-- A failed news execution whose internal error text is
`"connection refused"`. -/
def sampleFailedNews : SkillExecutionResult :=
  { status := SkillStatus.failed
    skill_id := some "news"
    skill_name := some "News Search"
    skill_type := some SkillType.data_retrieval
    output := none
    error := some "connection refused" }

/-- A sample inbox item as pushed over the SSE channel. -/
def sampleItem : InboxItemResponse :=
  { id := 42
    title := "📰 Found 3 articles"
    message := "a\nb\nc"
    journal_entry_id := some 7
    journal_excerpt := some "show me the latest AI news"
    created_at := "2024-01-01T00:00:00Z"
    is_read := false }

/-! ## Helper lemmas -/

/-- A list occurs as a contiguous infix of anything it right-terminates. -/
theorem listInfix_append_right (p n : List Char) : listInfix n (p ++ n) = true := by
  unfold listInfix
  rw [List.any_eq_true]
  refine ⟨p.length, ?_, ?_⟩
  · rw [List.mem_range, List.length_append]
    omega
  · rw [decide_eq_true_eq, List.drop_left, List.take_length]

/-- A string occurs verbatim in anything it right-terminates. -/
theorem strContains_append_right (p s : String) :
    strContains s (p ++ s) = true := by
  unfold strContains
  have h : (p ++ s).toList = p.toList ++ s.toList := by
    simp [String.toList, String.data_append]
  rw [h]
  exact listInfix_append_right _ _

/-- Steps other than `create n` never change how often `(c, n)` was
delivered. -/
theorem stepDelivery_count_of_ne (s : DeliveryState) (e : DeliveryEvent)
    (c n : Nat) (h : e ≠ DeliveryEvent.create n) :
    (stepDelivery s e).delivered.count (c, n) = s.delivered.count (c, n) := by
  cases e with
  | connect d => simp [stepDelivery]
  | disconnect d => simp [stepDelivery]
  | create m =>
      have hmn : m ≠ n := by
        intro he
        exact h (by rw [he])
      have hz : (s.connected.map fun d => (d, m)).count (c, n) = 0 := by
        rw [List.count_eq_zero]
        intro hmem
        rcases List.mem_map.mp hmem with ⟨d, _, hd⟩
        exact hmn (congrArg Prod.snd hd)
      simp [stepDelivery, List.count_append, hz]

/-- Over a trace containing no `create n`, the delivered count of
`(c, n)` is unchanged. -/
theorem runDelivery_count_no_create (tr : List DeliveryEvent)
    (s : DeliveryState) (c n : Nat) (h : DeliveryEvent.create n ∉ tr) :
    (runDelivery s tr).delivered.count (c, n) = s.delivered.count (c, n) := by
  induction tr generalizing s with
  | nil => rfl
  | cons e rest ih =>
      have hne : e ≠ DeliveryEvent.create n := by
        intro he
        exact h (by rw [he]; exact List.mem_cons_self _ _)
      have hrest : DeliveryEvent.create n ∉ rest := by
        intro hm
        exact h (List.mem_cons_of_mem _ hm)
      calc (runDelivery s (e :: rest)).delivered.count (c, n)
          = (runDelivery (stepDelivery s e) rest).delivered.count (c, n) := rfl
        _ = (stepDelivery s e).delivered.count (c, n) := ih _ hrest
        _ = s.delivered.count (c, n) := stepDelivery_count_of_ne s e c n hne

/-- One delivery step preserves distinctness of the connected set. -/
theorem stepDelivery_connected_nodup (s : DeliveryState) (e : DeliveryEvent)
    (h : s.connected.Nodup) : (stepDelivery s e).connected.Nodup := by
  cases e with
  | connect d =>
      by_cases hd : d ∈ s.connected
      · simpa [stepDelivery, hd] using h
      · have : (d :: s.connected).Nodup := List.nodup_cons.mpr ⟨hd, h⟩
        simpa [stepDelivery, hd] using this
  | disconnect d => exact List.Nodup.filter _ h
  | create m => exact h

/-- Distinctness of the connected set is invariant along any trace. -/
theorem runDelivery_connected_nodup (tr : List DeliveryEvent)
    (s : DeliveryState) (h : s.connected.Nodup) :
    (runDelivery s tr).connected.Nodup := by
  induction tr generalizing s with
  | nil => exact h
  | cons e rest ih => exact ih _ (stepDelivery_connected_nodup s e h)

/-- Counting a pair `(c, n)` in a constant-second-component map counts
the first component. -/
theorem count_pair_map (l : List Nat) (c n : Nat) :
    (l.map fun d => (d, n)).count (c, n) = l.count c := by
  induction l with
  | nil => rfl
  | cons a t ih => simp [List.count_cons, ih, Prod.ext_iff]

/-! ## Claim theorems -/

/-- C1: a skill executes only behind the planner's `should_act` gate:
when `should_act = false` no Executor run happens and the response's
`execution` and `inbox_item` fields are null; when `should_act = true`
exactly one Executor run produces the `ExecutionResult` returned in the
response. -/
theorem should_act_gate_c1 (registry : List (String × List SchemaField))
    (outcome : HandlerOutcome)
    (fmt : SkillExecutionResult → FormattedSkillResult)
    (plan : PlannerResult) :
    (plan.should_act = false →
      (process_note registry outcome fmt plan).execution = none ∧
      (process_note registry outcome fmt plan).inbox_item = none ∧
      (process_note registry outcome fmt plan).executorRuns = 0) ∧
    (plan.should_act = true →
      (process_note registry outcome fmt plan).execution =
        some (executor_run registry outcome plan).result ∧
      (process_note registry outcome fmt plan).executorRuns = 1) := by
  constructor
  · intro h
    refine ⟨?_, ?_, ?_⟩ <;> simp [process_note, h]
  · intro h
    refine ⟨?_, ?_⟩ <;> simp [process_note, h]

/-- C1 witness: a declining decision yields a null `execution` and zero
Executor runs; an acting decision yields exactly one run. -/
theorem should_act_gate_c1_witness :
    (process_note sampleRegistry HandlerOutcome.timeout format_news_result
      samplePlanNoAct).execution = none ∧
    (process_note sampleRegistry HandlerOutcome.timeout format_news_result
      samplePlanNoAct).executorRuns = 0 ∧
    (process_note sampleRegistry (HandlerOutcome.ok { articles := [] })
      format_news_result samplePlanAct).executorRuns = 1 := by
  refine ⟨?_, ?_, ?_⟩
  · exact ((should_act_gate_c1 sampleRegistry HandlerOutcome.timeout
      format_news_result samplePlanNoAct).1 rfl).1
  · exact ((should_act_gate_c1 sampleRegistry HandlerOutcome.timeout
      format_news_result samplePlanNoAct).1 rfl).2.2
  · exact ((should_act_gate_c1 sampleRegistry (HandlerOutcome.ok { articles := [] })
      format_news_result samplePlanAct).2 rfl).2

/-- C2: after a first parse failure the planner makes exactly one retry
(two model calls in total); a parsed retry reply is honoured, and a
second parse failure yields the `should_act = false` /
`reason = "planner_parse_error"` fallback instead of an exception. -/
theorem planner_retry_c2 (firstReply secondReply : Option PlannerResult)
    (h : firstReply = none) :
    (plan_action firstReply secondReply).2 = 2 ∧
    (secondReply = none →
      (plan_action firstReply secondReply).1.should_act = false ∧
      (plan_action firstReply secondReply).1.reason = "planner_parse_error") ∧
    (∀ d, secondReply = some d → (plan_action firstReply secondReply).1 = d) := by
  subst h
  cases secondReply with
  | none =>
      exact ⟨rfl, fun _ => ⟨rfl, rfl⟩, fun d hd => by cases hd⟩
  | some d =>
      refine ⟨rfl, ?_, ?_⟩
      · intro hc
        cases hc
      · intro d' hd
        cases hd
        rfl

/-- C2 witness: two concrete parse failures produce exactly two model
calls and the `planner_parse_error` fallback; a parsed retry reply is
returned as the decision. -/
theorem planner_retry_c2_witness :
    (plan_action none none).2 = 2 ∧
    (plan_action none none).1.should_act = false ∧
    (plan_action none none).1.reason = "planner_parse_error" ∧
    (plan_action none (some samplePlanAct)).1 = samplePlanAct := by
  have h := planner_retry_c2 none none rfl
  have h2 := planner_retry_c2 none (some samplePlanAct) rfl
  exact ⟨h.1, (h.2.1 rfl).1, (h.2.1 rfl).2, h2.2.2 samplePlanAct rfl⟩

/-- C3: once `create_session` succeeded, `release_session` runs exactly
once on every exit path of an action-kind execution, and a failure
injected at `submit_task` or in the polling phase (including a timeout)
makes the final `ExecutionResult` status `failed`. -/
theorem action_release_c3 (sid : String) (submit : SubmitOutcome)
    (poll : PollOutcome) :
    (run_action sid true submit poll).releaseCalls = 1 ∧
    (∀ m, submit = SubmitOutcome.err m →
      (run_action sid true submit poll).result.status = SkillStatus.failed) ∧
    (∀ m, poll = PollOutcome.err m →
      (run_action sid true submit poll).result.status = SkillStatus.failed) ∧
    (poll = PollOutcome.timed_out →
      (run_action sid true submit poll).result.status = SkillStatus.failed) := by
  refine ⟨?_, ?_, ?_, ?_⟩ <;>
    cases submit <;> cases poll <;> simp [run_action, failedResult]

/-- C3 witness: concrete failures at the submit phase, the poll phase
and the poll deadline each release the session exactly once and end
`failed`. -/
theorem action_release_c3_witness :
    (run_action "xcom-post" true (SubmitOutcome.err "http 500")
      (PollOutcome.completed { articles := [] })).releaseCalls = 1 ∧
    (run_action "xcom-post" true (SubmitOutcome.err "http 500")
      (PollOutcome.completed { articles := [] })).result.status = SkillStatus.failed ∧
    (run_action "xcom-post" true SubmitOutcome.ok
      (PollOutcome.err "task errored")).result.status = SkillStatus.failed ∧
    (run_action "xcom-post" true SubmitOutcome.ok
      PollOutcome.timed_out).result.status = SkillStatus.failed := by
  have h1 := action_release_c3 "xcom-post" (SubmitOutcome.err "http 500")
    (PollOutcome.completed { articles := [] })
  have h2 := action_release_c3 "xcom-post" SubmitOutcome.ok (PollOutcome.err "task errored")
  have h3 := action_release_c3 "xcom-post" SubmitOutcome.ok PollOutcome.timed_out
  exact ⟨h1.1, h1.2.1 "http 500" rfl, h2.2.2.1 "task errored" rfl, h3.2.2.2 rfl⟩

/-- C4: Executor error containment: a schema-validation failure yields a
`failed` result carrying the validation message with no external call
made, and every handler fault or timeout is caught and converted into a
`failed` result. -/
theorem executor_contain_c4 (registry : List (String × List SchemaField))
    (outcome : HandlerOutcome) (decision : PlannerResult) :
    (∀ sid entry msg, decision.skill_id = some sid →
      registry.find? (fun r => r.1 = sid) = some entry →
      validateParams entry.2 (decision.parameters.getD []) = Except.error msg →
      (executor_run registry outcome decision).result.status = SkillStatus.failed ∧
      (executor_run registry outcome decision).result.error = some msg ∧
      (executor_run registry outcome decision).externalCall = false) ∧
    (∀ msg, outcome = HandlerOutcome.fault msg →
      (executor_run registry outcome decision).result.status = SkillStatus.failed) ∧
    (outcome = HandlerOutcome.timeout →
      (executor_run registry outcome decision).result.status = SkillStatus.failed) := by
  refine ⟨?_, ?_, ?_⟩
  · intro sid entry msg h1 h2 h3
    refine ⟨?_, ?_, ?_⟩ <;> simp [executor_run, h1, h2, h3, failedResult]
  · intro msg h
    subst h
    unfold executor_run
    split
    · simp [failedResult]
    · split
      · simp [failedResult]
      · split
        · simp [failedResult]
        · simp [failedResult]
  · intro h
    subst h
    unfold executor_run
    split
    · simp [failedResult]
    · split
      · simp [failedResult]
      · split
        · simp [failedResult]
        · simp [failedResult]

/-- C4 witness: a decision missing the required `query` field fails with
the validation message and no external call; a handler fault and a
handler timeout each end `failed`. -/
theorem executor_contain_c4_witness :
    ((executor_run sampleRegistry HandlerOutcome.timeout
        samplePlanBadParams).result.status = SkillStatus.failed ∧
      (executor_run sampleRegistry HandlerOutcome.timeout
        samplePlanBadParams).result.error = some "missing required field: query" ∧
      (executor_run sampleRegistry HandlerOutcome.timeout
        samplePlanBadParams).externalCall = false) ∧
    (executor_run sampleRegistry (HandlerOutcome.fault "boom")
      samplePlanAct).result.status = SkillStatus.failed ∧
    (executor_run sampleRegistry HandlerOutcome.timeout
      samplePlanAct).result.status = SkillStatus.failed := by
  refine ⟨?_, ?_, ?_⟩
  · exact (executor_contain_c4 sampleRegistry HandlerOutcome.timeout
      samplePlanBadParams).1 "news"
      ("news", [ { name := "query", required := true, dflt := none }
               , { name := "limit", required := false, dflt := some "5" } ])
      "missing required field: query" rfl rfl rfl
  · exact (executor_contain_c4 sampleRegistry (HandlerOutcome.fault "boom")
      samplePlanAct).2.1 "boom" rfl
  · exact (executor_contain_c4 sampleRegistry HandlerOutcome.timeout
      samplePlanAct).2.2 rfl

/-- C9: when the event-stream connection drops, the client closes the
source and automatically schedules a reconnect after the 3000 ms
backoff delay, and the server never replays past events over the push
channel: a (re)connect step leaves the delivered log unchanged. -/
theorem reconnect_no_replay_c9 :
    (∀ s : SSEClientState,
      (onError s).sourceOpen = false ∧
      (onError s).reconnectTimer = some reconnectDelayMs ∧
      0 < reconnectDelayMs) ∧
    (∀ (st : DeliveryState) (c : Nat),
      (stepDelivery st (DeliveryEvent.connect c)).delivered = st.delivered) := by
  exact ⟨fun s => ⟨rfl, rfl, by decide⟩, fun st c => rfl⟩

/-- C10: a push event whose data does not parse as an inbox item is
caught: the error is logged, the subscriber callback is not invoked and
the event-stream subscription stays open. -/
theorem malformed_event_c10 (parse : String → Option InboxItemResponse)
    (data : String) (h : parse data = none) :
    handleInboxEvent parse data =
      { callbackInvoked := none, errorLogged := true, connectionClosed := false } := by
  unfold handleInboxEvent
  rw [h]

/-- C10 witness: a concrete malformed event is logged, dropped and
leaves the subscription open. -/
theorem malformed_event_c10_witness :
    handleInboxEvent (fun _ => none) "not json" =
      { callbackInvoked := none, errorLogged := true, connectionClosed := false } :=
  malformed_event_c10 (fun _ => none) "not json" rfl

/-- C5: a client connected before a notification is created receives
exactly one push event for it, however the trace continues — in
particular a disconnect followed by a reconnect after the creation adds
no duplicate, since connect steps replay nothing; and the client-side
`addItem` ignores an item whose id is already present. -/
theorem push_once_c5 (pre post : List DeliveryEvent) (c n : Nat)
    (hpre : DeliveryEvent.create n ∉ pre)
    (hpost : DeliveryEvent.create n ∉ post)
    (hc : c ∈ (runDelivery initDelivery pre).connected) :
    receivedCount c n
      (runDelivery initDelivery (pre ++ DeliveryEvent.create n :: post)) = 1 ∧
    (∀ (item : InboxItemResponse) (prev : List InboxItemResponse),
      (prev.any fun i => i.id = item.id) = true → addItem item prev = prev) := by
  constructor
  · have hsplit : runDelivery initDelivery (pre ++ DeliveryEvent.create n :: post)
        = runDelivery
            (stepDelivery (runDelivery initDelivery pre) (DeliveryEvent.create n))
            post := by
      simp [runDelivery, List.foldl_append]
    rw [hsplit]
    unfold receivedCount
    rw [runDelivery_count_no_create post _ c n hpost]
    have hnodup : (runDelivery initDelivery pre).connected.Nodup :=
      runDelivery_connected_nodup pre initDelivery (by simp [initDelivery])
    have hcount0 : (runDelivery initDelivery pre).delivered.count (c, n) = 0 := by
      rw [runDelivery_count_no_create pre initDelivery c n hpre]
      simp [initDelivery]
    have hmap : ((runDelivery initDelivery pre).connected.map
        fun d => (d, n)).count (c, n) = (runDelivery initDelivery pre).connected.count c :=
      count_pair_map _ c n
    have hone : (runDelivery initDelivery pre).connected.count c = 1 :=
      List.count_eq_one_of_mem hnodup hc
    simp [stepDelivery, List.count_append, hcount0, hmap, hone]
  · intro item prev h
    simp [addItem, h]

/-- C5 witness: client 1 connects, notification 7 is created, client 1
drops and reconnects, notification 8 is created; client 1 receives
exactly one event for notification 7, and re-adding an already-present
inbox item leaves the client's list unchanged. -/
theorem push_once_c5_witness :
    receivedCount 1 7 (runDelivery initDelivery
      ([DeliveryEvent.connect 1] ++ DeliveryEvent.create 7 ::
        [DeliveryEvent.disconnect 1, DeliveryEvent.connect 1,
         DeliveryEvent.create 8])) = 1 ∧
    addItem sampleItem [sampleItem] = [sampleItem] := by
  have h := push_once_c5 [DeliveryEvent.connect 1]
    [DeliveryEvent.disconnect 1, DeliveryEvent.connect 1, DeliveryEvent.create 8]
    1 7 (by decide) (by decide) (by decide)
  exact ⟨h.1, h.2 sampleItem [sampleItem] (by decide)⟩

/-- C6 counterexample: `analysis` is a `SkillType` that is neither
`data_retrieval` nor `action`, so the skill kind is not a union of
exactly those two variants. -/
theorem skill_kinds_c6_counterexample :
    ¬ (SkillType.analysis = SkillType.data_retrieval ∨
       SkillType.analysis = SkillType.action) := by
  decide

/-- C6 (amended): the `SkillType` union has exactly the four variants
`data_retrieval`, `action`, `analysis` and `interactive`, and every
skill in the registered-skills table is of kind `data_retrieval` or
`action`. -/
theorem skill_kinds_c6_amended :
    (∀ k : SkillType,
      k = SkillType.data_retrieval ∨ k = SkillType.action ∨
      k = SkillType.analysis ∨ k = SkillType.interactive) ∧
    (registeredSkills.all fun s =>
      s.kind = SkillType.data_retrieval ∨ s.kind = SkillType.action) = true := by
  constructor
  · intro k
    cases k <;> simp
  · decide

/-- C7 counterexample: for a failed execution whose internal error text
is `"connection refused"`, the user-visible failure message is
`"Error: connection refused"` — it contains the internal error text
verbatim. -/
theorem failure_notification_c7_counterexample :
    (format_news_result sampleFailedNews).message = "Error: connection refused" ∧
    strContains "connection refused"
      (format_news_result sampleFailedNews).message = true := by
  exact ⟨rfl, by decide⟩

/-- C7 (amended): every failure mode still produces a notification — an
acting decision always yields an inbox item, also for `failed`
executions, and the formatter is total — but the user-visible failure
text references the internal error text by embedding it verbatim after
the prefix `"Error: "`, rather than never containing it. -/
theorem failure_notification_c7_amended
    (registry : List (String × List SchemaField)) (outcome : HandlerOutcome)
    (plan : PlannerResult) (r : SkillExecutionResult) (e : String) :
    (plan.should_act = true →
      ∃ f, (process_note registry outcome format_news_result plan).inbox_item
        = some f) ∧
    (r.status = SkillStatus.failed → r.error = some e →
      (format_news_result r).message = "Error: " ++ e ∧
      strContains e (format_news_result r).message = true) := by
  constructor
  · intro h
    exact ⟨format_news_result (executor_run registry outcome plan).result,
      by simp [process_note, h]⟩
  · intro hs he
    have hmsg : (format_news_result r).message = "Error: " ++ e := by
      simp [format_news_result, hs, pyOptStr, he]
    refine ⟨hmsg, ?_⟩
    rw [hmsg]
    exact strContains_append_right "Error: " e

/-- C7 (amended) witness: a concrete acting decision with a timing-out
handler still yields an inbox item, and the concrete failed result's
message embeds its error text. -/
theorem failure_notification_c7_amended_witness :
    (∃ f, (process_note sampleRegistry HandlerOutcome.timeout
      format_news_result samplePlanAct).inbox_item = some f) ∧
    (format_news_result sampleFailedNews).message = "Error: " ++ "connection refused" ∧
    strContains "connection refused"
      (format_news_result sampleFailedNews).message = true := by
  have h := failure_notification_c7_amended sampleRegistry HandlerOutcome.timeout
    samplePlanAct sampleFailedNews "connection refused"
  exact ⟨h.1 rfl, (h.2 rfl rfl).1, (h.2 rfl rfl).2⟩

/-- C8: for every failed execution result the formatter produces status
`pending`, no action label, and a message referencing the original
error text verbatim. -/
theorem formatter_failed_c8 (r : SkillExecutionResult) (e : String)
    (h : r.status = SkillStatus.failed) :
    (format_news_result r).status = InboxItemStatus.pending ∧
    (format_news_result r).action = none ∧
    (r.error = some e →
      strContains e (format_news_result r).message = true) := by
  refine ⟨by simp [format_news_result, h], by simp [format_news_result, h], ?_⟩
  intro he
  have hmsg : (format_news_result r).message = "Error: " ++ e := by
    simp [format_news_result, h, pyOptStr, he]
  rw [hmsg]
  exact strContains_append_right "Error: " e

/-- C8 witness: the concrete failed news result formats to `pending`,
no action label, with the error text inside the message. -/
theorem formatter_failed_c8_witness :
    (format_news_result sampleFailedNews).status = InboxItemStatus.pending ∧
    (format_news_result sampleFailedNews).action = none ∧
    strContains "connection refused"
      (format_news_result sampleFailedNews).message = true := by
  have h := formatter_failed_c8 sampleFailedNews "connection refused" rfl
  exact ⟨h.1, h.2.1, h.2.2 rfl⟩

end Tappy
